import Mathlib

/-!
Verification development for the mock GraphQL transport layer
(src/mockLink.ts and src/mockSubscription.ts).

The GraphQL document representation, the directive-stripping transforms,
the document printer and the push-based observable primitive are external
collaborators of the code under verification; they are embedded here at
their interface boundary, restricted to the structure the claims exercise:
a document is a single operation holding a tree of fields, each field
carrying a name, a list of directives and a list of sub-selections.
-/

/-- A directive attached to a field. The two directives the code treats
specially are the client-local marker and the connection-pagination
directive; every other directive is carried opaquely by name. -/
inductive Directive where
  | client
  | connection
  | other (name : String)
deriving DecidableEq, Repr

/-- A field of a GraphQL selection set: a name, its directives, and its
sub-selections. Models the fragment of the external DocumentNode tree
relevant to the transforms used by the code. -/
inductive FieldNode where
  | mk (name : String) (directives : List Directive) (selections : List FieldNode)

/-- The name of a field. -/
def fieldName : FieldNode → String
  | .mk n _ _ => n

/-- Whether a field carries the client-local directive. -/
def hasClient (f : FieldNode) : Bool :=
  match f with
  | .mk _ ds _ => ds.any (fun d => match d with | .client => true | _ => false)

/-- A query document: one operation with a list of top-level selections.
Models the external DocumentNode restricted to a single operation. -/
structure DocumentNode where
  selections : List FieldNode

/-- Directive-list filter dropping connection directives; the directive
payload of the external removeConnectionDirectiveFromDocument transform. -/
def removeConnDirs (ds : List Directive) : List Directive :=
  ds.filter (fun d => match d with | .connection => false | _ => true)

mutual
/-- Removal of connection directives from one field, recursively. -/
def removeConnF : FieldNode → FieldNode
  | .mk n ds sels => .mk n (removeConnDirs ds) (removeConnFs sels)

/-- Removal of connection directives from a selection list, recursively. -/
def removeConnFs : List FieldNode → List FieldNode
  | [] => []
  | f :: fs => removeConnF f :: removeConnFs fs
end

mutual
/-- Removal of metadata-only typename fields from one field, recursively.
Mirrors the visitor in stripTypenames, which deletes every field whose
name is the typename marker. -/
def stripTnF : FieldNode → FieldNode
  | .mk n ds sels => .mk n ds (stripTnFs sels)

/-- Removal of typename fields from a selection list, recursively. -/
def stripTnFs : List FieldNode → List FieldNode
  | [] => []
  | f :: fs =>
    if fieldName f = "__typename" then stripTnFs fs
    else stripTnF f :: stripTnFs fs
end

mutual
/-- One-pass removal of both connection directives and typename fields
from one field. Used to relate the two-pass pipeline of normalise to a
single canonical scrubbing. -/
def scrubF : FieldNode → FieldNode
  | .mk n ds sels => .mk n (removeConnDirs ds) (scrubFs sels)

/-- One-pass removal of connection directives and typename fields from a
selection list. -/
def scrubFs : List FieldNode → List FieldNode
  | [] => []
  | f :: fs =>
    if fieldName f = "__typename" then scrubFs fs
    else scrubF f :: scrubFs fs
end

mutual
/-- Removal of fields carrying the client-local directive from one field
(the field itself is kept; client-marked sub-selections are dropped). -/
def removeClientF : FieldNode → FieldNode
  | .mk n ds sels => .mk n ds (removeClientFs sels)

/-- Removal of client-marked fields from a selection list: a field with
the client directive is dropped with its whole subtree. -/
def removeClientFs : List FieldNode → List FieldNode
  | [] => []
  | f :: fs =>
    if hasClient f then removeClientFs fs
    else removeClientF f :: removeClientFs fs
end

/-- Model of the external removeClientSetsFromDocument transform: drop
every field marked with the client directive; when nothing meaningful
remains (the operation has no selections left) the transform yields null,
modeled as none. -/
def removeClientSetsFromDocument (document : DocumentNode) : Option DocumentNode :=
  let stripped := removeClientFs document.selections
  if stripped.isEmpty then none else some ⟨stripped⟩

/-- Model of the external removeConnectionDirectiveFromDocument transform:
drop the connection directive from every field. Pure directive removal
never empties a document, so the model always yields a document; the
Option type mirrors the nullable type of the external transform. -/
def removeConnectionDirectiveFromDocument (requestQuery : DocumentNode) : Option DocumentNode :=
  some ⟨removeConnFs requestQuery.selections⟩

/-- From src/mockLink.ts stripTypenames: a visitor deleting every field
named with the typename marker. The visitor cannot delete the document
root, so the model always yields a document; the Option type mirrors the
nullable return type in the source. -/
def stripTypenames (document : DocumentNode) : Option DocumentNode :=
  some ⟨stripTnFs document.selections⟩

/-- From src/mockLink.ts normalise: remove connection directives, then
typename fields, falling back to the original query when either transform
yields null. -/
def normalise (requestQuery : DocumentNode) : DocumentNode :=
  match removeConnectionDirectiveFromDocument requestQuery with
  | none => requestQuery
  | some stripped =>
    match stripTypenames stripped with
    | none => requestQuery
    | some stripped2 => stripped2

/-- Printing of one directive, model of the external printer. -/
def printDirective : Directive → String
  | .client => "@client"
  | .connection => "@connection"
  | .other n => "@" ++ n

/-- Printing of a directive list, each directive preceded by a space. -/
def printDirectives : List Directive → String
  | [] => ""
  | d :: ds => " " ++ printDirective d ++ printDirectives ds

mutual
/-- Printing of one field: name, directives, braced sub-selections.
Deterministic model of the external print function. -/
def printField : FieldNode → String
  | .mk n ds sels => n ++ printDirectives ds ++ " \x7b " ++ printFields sels ++ "\x7d"

/-- Printing of a selection list, each field followed by a space. -/
def printFields : List FieldNode → String
  | [] => ""
  | f :: fs => printField f ++ " " ++ printFields fs
end

/-- Printing of a whole document, model of the external print function. -/
def printDoc (d : DocumentNode) : String :=
  "query \x7b " ++ printFields d.selections ++ "\x7d"

/-- JSON string escaping of one character, the escape map used when the
key object is serialized. -/
def escapeChar (c : Char) : List Char :=
  if c = '"' then ['\\', '"']
  else if c = '\\' then ['\\', '\\']
  else if c = '\n' then ['\\', 'n']
  else [c]

/-- JSON string escaping of a character list. -/
def escapeList : List Char → List Char
  | [] => []
  | c :: cs => escapeChar c ++ escapeList cs

mutual
/-- Inverse of the JSON escaping: a backslash always starts a two-character
escape, every other character stands for itself. -/
def unescapeList : List Char → List Char
  | [] => []
  | c :: cs => if c = '\\' then unescapeTail cs else c :: unescapeList cs

/-- Continuation of unescaping right after a backslash. -/
def unescapeTail : List Char → List Char
  | [] => []
  | d :: rest => (if d = 'n' then '\n' else d) :: unescapeList rest
end

/-- From src/mockLink.ts requestToKey: normalise the query, print it, wrap
it as a one-field JSON object and serialize deterministically. -/
def requestToKey (query : DocumentNode) : String :=
  let normalised := normalise query
  let queryString := printDoc normalised
  "\x7b\"query\":\"" ++ String.mk (escapeList queryString.data) ++ "\"\x7d"

/-- Retraction from a serialized key back to the printed query: drop the
JSON wrapper and unescape. -/
def decodeKey (k : String) : String :=
  String.mk (unescapeList (((k.data.drop 10).dropLast).dropLast))

/-- The missing handler policy of the link, from src/mockLink.ts. -/
inductive MissingHandlerPolicy where
  | throwError
  | warnAndReturnError
  | returnError
deriving DecidableEq, Repr

/-- Default policy from src/mockLink.ts. -/
def DEFAULT_MISSING_HANDLER_POLICY : MissingHandlerPolicy := .throwError

/-- Variables of an operation, an opaque mapping of names to values. -/
abbrev Vars := List (String × String)

/-- Outcome of an eventually-resolved promise-like value: it either
resolves with a response value or rejects with a reason. -/
inductive PromiseOutcome where
  | resolves (value : String)
  | rejects (reason : String)
deriving DecidableEq, Repr

/-- Runtime shape of a value returned by a request handler, as the
dispatcher discriminates it. The instanceof check of isSubscription is
identity based, so an object implementing the subscription interface
without being constructed from the MockSubscription class is a distinct
shape (subscriptionLike, with no callable then capability), as is a bare
undefined result. -/
inductive HValue where
  | promiseLike (outcome : PromiseOutcome)
  | mockSubInstance
  | subscriptionLike
  | undef
deriving DecidableEq, Repr

/-- What invoking a handler does: throw synchronously or return a value. -/
inductive HandlerOutcome where
  | throws (msg : String)
  | returns (value : HValue)

/-- A request handler: a function from operation variables to an outcome. -/
abbrev Handler := Vars → HandlerOutcome

/-- From src/mockLink.ts isPromise: truthy with a callable then. -/
def isPromise : HValue → Bool
  | .promiseLike _ => true
  | _ => false

/-- From src/mockLink.ts isSubscription: an identity-based instanceof
check against the concrete MockSubscription class, true only for values
constructed from that class. -/
def isSubscription : HValue → Bool
  | .mockSubInstance => true
  | _ => false

/-- The JavaScript typeof string of a handler return value, used in the
invalid-return-type message. -/
def typeofStr : HValue → String
  | .promiseLike _ => "object"
  | .mockSubInstance => "object"
  | .subscriptionLike => "object"
  | .undef => "undefined"

/-- An operation submitted to the link: a query document plus variables. -/
structure Operation where
  query : DocumentNode
  vars : Vars

/-- The events a downstream observer can receive. -/
inductive ObsEvent where
  | next (value : String)
  | errorEv (value : String)
  | complete
deriving DecidableEq, Repr

/-- Behavior of the result stream returned by the link, once subscribed:
the console warnings logged, the events delivered to the observer (for
the deferred branch, the events eventually delivered when the deferred
value settles), and whether the body attached the observer to a handler
owned MockSubscription instead. A synchronous throw inside the stream
body is delivered by the observable primitive as an error event. -/
structure StreamModel where
  warnings : List String
  events : List ObsEvent
  attachesToSubscription : Bool
deriving DecidableEq, Repr

/-- Association lookup in the handler registry, modeling indexing of the
Record of request handlers by the string key. -/
def lookupHandler : List (String × Handler) → String → Option Handler
  | [], _ => none
  | (k, h) :: rest, key => if k = key then some h else lookupHandler rest key

/-- The MockLink state: its policy and its registered handlers keyed by
canonical key, from src/mockLink.ts. -/
structure MockLink where
  missingHandlerPolicy : MissingHandlerPolicy
  requestHandlers : List (String × Handler)

/-- From src/mockLink.ts getNotDefinedHandlerMessage. -/
def getNotDefinedHandlerMessage (operation : Operation) : String :=
  "Request handler not defined for query: " ++ printDoc operation.query

/-- Message wrapping a synchronous handler throw, from src/mockLink.ts. -/
def handlerErrorMessage (msg : String) : String :=
  "Unexpected error whilst calling request handler: " ++ msg

/-- Invalid-return-type message naming the received shape via typeof,
from src/mockLink.ts. -/
def invalidReturnMessage (v : HValue) : String :=
  "Request handler must return a promise or subscription. Received \x27" ++ typeofStr v ++ "\x27."

/-- Body of the Observable constructed by MockLink.request, evaluated on
subscription. The branch order mirrors the source: missing handler,
guarded handler invocation, then the promise test, the subscription
test, and the invalid-return-type fallback; the discriminators isPromise
and isSubscription hold exactly on the promiseLike and mockSubInstance
shapes, so the branches are written by shape. -/
def requestBody (policy : MissingHandlerPolicy) (handler : Option Handler)
    (op : Operation) : StreamModel :=
  match handler with
  | none =>
    ⟨(if policy = .warnAndReturnError then [getNotDefinedHandlerMessage op] else []),
     [.errorEv (getNotDefinedHandlerMessage op)], false⟩
  | some h =>
    match h op.vars with
    | .throws msg => ⟨[], [.errorEv (handlerErrorMessage msg)], false⟩
    | .returns v =>
      match v with
      | .promiseLike (.resolves r) => ⟨[], [.next r, .complete], false⟩
      | .promiseLike (.rejects e) => ⟨[], [.errorEv e], false⟩
      | .mockSubInstance => ⟨[], [], true⟩
      | .subscriptionLike => ⟨[], [.errorEv (invalidReturnMessage .subscriptionLike)], false⟩
      | .undef => ⟨[], [.errorEv (invalidReturnMessage .undef)], false⟩

/-- From src/mockLink.ts MockLink.request: compute the dispatch key, look
up a handler; with no handler under the throw-error policy, throw
synchronously before any stream is constructed (the error branch of
Except); otherwise return the stream whose on-subscription behavior is
requestBody. -/
def MockLink.request (l : MockLink) (operation : Operation) : Except String StreamModel :=
  let key := requestToKey operation.query
  let handler := lookupHandler l.requestHandlers key
  if handler.isNone = true ∧ l.missingHandlerPolicy = .throwError then
    .error (getNotDefinedHandlerMessage operation)
  else
    .ok (requestBody l.missingHandlerPolicy handler operation)

/-- Warning logged when registering an entirely client-side query, from
src/mockLink.ts. -/
def entirelyClientSideWarning : String :=
  "Warning: mock-apollo-client - The query is entirely client side (using @client directives) so the request handler will not be registered."

/-- Duplicate registration message, from src/mockLink.ts. -/
def duplicateHandlerMessage (requestQuery : DocumentNode) : String :=
  "Request handler already defined for query: " ++ printDoc requestQuery

/-- Result of a registration call: the resulting link state, the console
warnings logged, and the message of the error thrown, if any. -/
structure RegisterOutcome where
  link : MockLink
  warnings : List String
  thrown : Option String

/-- From src/mockLink.ts MockLink.setRequestHandler: strip client
directives; when the query is entirely client side, warn and do nothing;
otherwise derive the registration key from the stripped query and either
throw on a duplicate or store the handler. -/
def MockLink.setRequestHandler (l : MockLink) (requestQuery : DocumentNode)
    (handler : Handler) : RegisterOutcome :=
  match removeClientSetsFromDocument requestQuery with
  | none => ⟨l, [entirelyClientSideWarning], none⟩
  | some queryWithoutClientDirectives =>
    let key := requestToKey queryWithoutClientDirectives
    if (lookupHandler l.requestHandlers key).isSome then
      ⟨l, [], some (duplicateHandlerMessage requestQuery)⟩
    else
      ⟨⟨l.missingHandlerPolicy, (key, handler) :: l.requestHandlers⟩, [], none⟩

/-- Modelled from the spec: the registration entry point with the replace
option of the legacy registration variant, which is not present under
src/. Per the spec, registration fails with a duplicate handler error
when a handler exists for the same canonical key and replace is not set;
with replace set, the second registration silently supersedes the first.
The client-side stripping and the duplicate error mirror
MockLink.setRequestHandler from src/mockLink.ts. -/
def register (l : MockLink) (requestQuery : DocumentNode) (handler : Handler)
    (replace : Bool) : RegisterOutcome :=
  match removeClientSetsFromDocument requestQuery with
  | none => ⟨l, [entirelyClientSideWarning], none⟩
  | some queryWithoutClientDirectives =>
    let key := requestToKey queryWithoutClientDirectives
    if replace = false ∧ (lookupHandler l.requestHandlers key).isSome then
      ⟨l, [], some (duplicateHandlerMessage requestQuery)⟩
    else
      ⟨⟨l.missingHandlerPolicy, (key, handler) :: l.requestHandlers⟩, [], none⟩

/-- The canonical key under which a handler for the given document is
stored, when registration stores one at all: the key of the document
after client-directive stripping. -/
def registrationKey (requestQuery : DocumentNode) : Option String :=
  match removeClientSetsFromDocument requestQuery with
  | none => none
  | some stripped => some (requestToKey stripped)

/-- Model of the external push-based observer primitive the result stream
hands to a MockSubscription (the SubscriptionObserver of the observable
library): it records every method call made on it (invoked) and the
events it actually passes downstream (delivered); once closed - after an
error or a complete - further calls are discarded and not delivered. -/
structure SubscriptionObserver where
  closed : Bool
  invoked : List ObsEvent
  delivered : List ObsEvent
deriving DecidableEq, Repr

/-- The next method of the observer primitive: always recorded as an
invocation; delivered downstream only while the observer is open. -/
def SubscriptionObserver.onNext (o : SubscriptionObserver) (v : String) : SubscriptionObserver :=
  ⟨o.closed, o.invoked ++ [.next v],
   if o.closed then o.delivered else o.delivered ++ [.next v]⟩

/-- The error method of the observer primitive: delivered only while
open, and closes the observer. -/
def SubscriptionObserver.onError (o : SubscriptionObserver) (e : String) : SubscriptionObserver :=
  ⟨true, o.invoked ++ [.errorEv e],
   if o.closed then o.delivered else o.delivered ++ [.errorEv e]⟩

/-- The complete method of the observer primitive: delivered only while
open, and closes the observer. -/
def SubscriptionObserver.onComplete (o : SubscriptionObserver) : SubscriptionObserver :=
  ⟨true, o.invoked ++ [.complete],
   if o.closed then o.delivered else o.delivered ++ [.complete]⟩

/-- State of a MockSubscription from src/mockSubscription.ts: the
optional attached observer and the logging flag. -/
structure MockSubscription where
  observer : Option SubscriptionObserver
  loggingDisabled : Bool

/-- From src/mockSubscription.ts createMockSubscription: a fresh handle
with no observer attached. -/
def createMockSubscription (disableLogging : Bool) : MockSubscription :=
  ⟨none, disableLogging⟩

/-- No-observer warning from src/mockSubscription.ts. -/
def noObserverWarning : String :=
  "Warning: mock-apollo-client - Subscription has no observer, this will have no effect"

/-- Closed-subscription warning from src/mockSubscription.ts. -/
def closedWarning : String :=
  "Warning: mock-apollo-client - Subscription is closed, this will have no effect"

/-- Duplicate-subscribe warning from src/mockSubscription.ts. -/
def overrideWarning : String :=
  "Warning: mock-apollo-client - Subscription observer should probably not be overriden"

/-- From src/mockSubscription.ts, the closed getter: true when no
observer is attached or the attached observer reports closed. -/
def MockSubscription.closed (s : MockSubscription) : Bool :=
  match s.observer with
  | none => true
  | some o => o.closed

/-- From src/mockSubscription.ts verifyState: the warnings logged before
an emission; silent when logging is disabled, otherwise one no-observer
warning when unattached, else one closed warning when closed. -/
def MockSubscription.verifyState (s : MockSubscription) : List String :=
  if s.loggingDisabled then []
  else if s.observer.isNone then [noObserverWarning]
  else if s.closed then [closedWarning]
  else []

/-- From src/mockSubscription.ts subscribe: warn when an observer is
already attached and logging is enabled, then replace the reference. -/
def MockSubscription.subscribe (s : MockSubscription) (o : SubscriptionObserver) :
    MockSubscription × List String :=
  (⟨some o, s.loggingDisabled⟩,
   if s.observer.isSome = true ∧ s.loggingDisabled = false then [overrideWarning] else [])

/-- From src/mockSubscription.ts next: verify state for warnings, then
invoke next on the attached observer, if any. -/
def MockSubscription.next (s : MockSubscription) (v : String) :
    MockSubscription × List String :=
  (⟨s.observer.map (fun o => o.onNext v), s.loggingDisabled⟩, s.verifyState)

/-- From src/mockSubscription.ts error: verify state for warnings, then
invoke error on the attached observer, if any. -/
def MockSubscription.error (s : MockSubscription) (e : String) :
    MockSubscription × List String :=
  (⟨s.observer.map (fun o => o.onError e), s.loggingDisabled⟩, s.verifyState)

/-- From src/mockSubscription.ts complete: verify state for warnings,
then invoke complete on the attached observer, if any. -/
def MockSubscription.complete (s : MockSubscription) :
    MockSubscription × List String :=
  (⟨s.observer.map (fun o => o.onComplete), s.loggingDisabled⟩, s.verifyState)

/-- A call a handler can make on its subscription handle. -/
inductive SubCall where
  | nextC (value : String)
  | errorC (value : String)
  | completeC
deriving DecidableEq, Repr

/-- The observer event corresponding to a handle call. -/
def callEvent : SubCall → ObsEvent
  | .nextC v => .next v
  | .errorC e => .errorEv e
  | .completeC => .complete

/-- Run one handle call against a subscription state. -/
def applyCall (s : MockSubscription) : SubCall → MockSubscription × List String
  | .nextC v => s.next v
  | .errorC e => s.error e
  | .completeC => s.complete

/-- Run a sequence of handle calls, accumulating warnings in order. -/
def runCalls (s : MockSubscription) : List SubCall → MockSubscription × List String
  | [] => (s, [])
  | c :: cs =>
    let r1 := applyCall s c
    let r2 := runCalls r1.1 cs
    (r2.1, r1.2 ++ r2.2)

/-- The canonical scrubbed form of a document: connection directives and
typename fields removed throughout. Two documents differ only in those
artifacts exactly when their scrubbed forms coincide. -/
def scrubDoc (d : DocumentNode) : DocumentNode :=
  ⟨scrubFs d.selections⟩

/-- A document with every dispatch-irrelevant artifact named by the claim
erased: client-marked fields, connection directives and typename fields.
Two documents differ only in client-local markers, connection directives
or typename fields exactly when these erasures coincide. -/
def artifactFreeDoc (d : DocumentNode) : DocumentNode :=
  ⟨scrubFs (removeClientFs d.selections)⟩

theorem fieldName_removeConnF (f : FieldNode) : fieldName (removeConnF f) = fieldName f := by
  cases f
  rfl

theorem fieldName_removeClientF (f : FieldNode) : fieldName (removeClientF f) = fieldName f := by
  cases f
  rfl

mutual
/-- The two-pass pipeline on one field agrees with the one-pass scrub. -/
theorem stripTn_removeConn_field : ∀ f : FieldNode, stripTnF (removeConnF f) = scrubF f
  | .mk n ds sels => by
    simp only [stripTnF, removeConnF, scrubF]
    exact congrArg (FieldNode.mk n (removeConnDirs ds)) (stripTn_removeConn_fields sels)

/-- The two-pass pipeline on a selection list agrees with the scrub. -/
theorem stripTn_removeConn_fields : ∀ fs : List FieldNode,
    stripTnFs (removeConnFs fs) = scrubFs fs
  | [] => rfl
  | f :: fs => by
    simp only [removeConnFs, stripTnFs, scrubFs, fieldName_removeConnF]
    by_cases h : fieldName f = "__typename"
    · simp only [h, if_true, stripTn_removeConn_fields fs]
    · simp only [if_neg h, stripTn_removeConn_field f, stripTn_removeConn_fields fs]
end

/-- The dispatch-time normalisation is exactly the canonical scrub. -/
theorem normalise_eq_scrubDoc (d : DocumentNode) : normalise d = scrubDoc d := by
  show (match stripTypenames ⟨removeConnFs d.selections⟩ with
        | none => d
        | some stripped2 => stripped2) = scrubDoc d
  simp only [stripTypenames, scrubDoc]
  exact congrArg DocumentNode.mk (stripTn_removeConn_fields d.selections)

/-- C1 (amended): for every pair of query documents that differ only in
connection-pagination directives or metadata-only typename fields - that
is, whose scrubbed forms coincide - the canonical key function used at
dispatch time produces byte-identical string keys for both documents.
(The original claim also allowed differences in client-local markers;
the dispatch-time key is sensitive to those, see the counterexample.) -/
theorem dispatch_key_invariant_under_connection_and_typename
    (d1 d2 : DocumentNode) (h : scrubDoc d1 = scrubDoc d2) :
    requestToKey d1 = requestToKey d2 := by
  simp only [requestToKey, normalise_eq_scrubDoc, h]

/-- C1 counterexample: two documents differing only in a client-local
marker (a whole field carried by the client directive) - their artifact
erasures coincide - receive different dispatch-time keys, because the
dispatch pipeline never strips client-marked fields. -/
theorem dispatch_key_client_marker_counterexample :
    artifactFreeDoc ⟨[.mk ("a") [] [], .mk ("b") [.client] []]⟩
      = artifactFreeDoc ⟨[.mk ("a") [] []]⟩
    ∧ requestToKey ⟨[.mk ("a") [] [], .mk ("b") [.client] []]⟩
      ≠ requestToKey ⟨[.mk ("a") [] []]⟩ :=
  ⟨rfl, by decide⟩

/-- Witness for C1: a document with a connection directive and a typename
field receives the same dispatch key as its scrubbed counterpart. -/
theorem dispatch_key_invariant_witness :
    scrubDoc ⟨[.mk ("a") [.connection] [.mk ("__typename") [] []]]⟩
      = scrubDoc ⟨[.mk ("a") [] []]⟩
    ∧ requestToKey ⟨[.mk ("a") [.connection] [.mk ("__typename") [] []]]⟩
      = requestToKey ⟨[.mk ("a") [] []]⟩ :=
  ⟨rfl, dispatch_key_invariant_under_connection_and_typename _ _ rfl⟩

/-- Unescaping undoes the JSON escaping: the encoding is injective. -/
theorem unescape_escape : ∀ l : List Char, unescapeList (escapeList l) = l
  | [] => rfl
  | c :: cs => by
    have ih := unescape_escape cs
    by_cases h1 : c = '"'
    · subst h1; simp [escapeList, escapeChar, unescapeList, unescapeTail, ih]
    · by_cases h2 : c = '\\'
      · subst h2; simp [escapeList, escapeChar, unescapeList, unescapeTail, ih]
      · by_cases h3 : c = '\n'
        · subst h3; simp [escapeList, escapeChar, unescapeList, unescapeTail, ih]
        · simp [escapeList, escapeChar, unescapeList, unescapeTail, h1, h2, h3, ih]

theorem data_mk (l : List Char) : (String.mk l).data = l := rfl

theorem keyPrefix_data : ("\x7b\"query\":\"" : String).data
    = ['\x7b', '"', 'q', 'u', 'e', 'r', 'y', '"', ':', '"'] := rfl

theorem keySuffix_data : ("\"\x7d" : String).data = ['"', '\x7d'] := rfl

theorem drop_keyPrefix (l : List Char) :
    ((['\x7b', '"', 'q', 'u', 'e', 'r', 'y', '"', ':', '"'] : List Char) ++ l).drop 10 = l := rfl

/-- The printed normalised query can be recovered from the serialized
key: the key determines the printed normalised form. -/
theorem decodeKey_requestToKey (q : DocumentNode) :
    decodeKey (requestToKey q) = printDoc (normalise q) := by
  show decodeKey ("\x7b\"query\":\"" ++ String.mk (escapeList (printDoc (normalise q)).data) ++ "\"\x7d")
      = printDoc (normalise q)
  simp only [decodeKey]
  rw [String.data_append, String.data_append, data_mk, keyPrefix_data, keySuffix_data,
    List.append_assoc, drop_keyPrefix]
  rw [show escapeList (printDoc (normalise q)).data ++ ['"', '\x7d']
        = (escapeList (printDoc (normalise q)).data ++ ['"']) ++ ['\x7d'] by simp]
  rw [List.dropLast_concat, List.dropLast_concat, unescape_escape]

mutual
/-- Client stripping never lengthens the printed scrubbed form of a
field that survives it. -/
theorem printField_scrub_removeClient_le : ∀ f : FieldNode,
    (printField (scrubF (removeClientF f))).length ≤ (printField (scrubF f)).length
  | .mk n ds sels => by
    have h := printFields_scrub_removeClient_le sels
    simp only [removeClientF, scrubF, printField, String.length_append]
    omega

/-- Client stripping never lengthens the printed scrubbed form of a
selection list. -/
theorem printFields_scrub_removeClient_le : ∀ fs : List FieldNode,
    (printFields (scrubFs (removeClientFs fs))).length ≤ (printFields (scrubFs fs)).length
  | [] => Nat.le_refl _
  | f :: fs => by
    have hfs := printFields_scrub_removeClient_le fs
    by_cases hc : hasClient f = true
    · simp only [removeClientFs, hc, if_true]
      by_cases ht : fieldName f = "__typename"
      · simp only [scrubFs, ht, if_true]
        exact hfs
      · simp only [scrubFs, ht, if_false, printFields, String.length_append]
        omega
    · have hf := printField_scrub_removeClient_le f
      simp only [removeClientFs, hc, if_false, scrubFs, fieldName_removeClientF]
      by_cases ht : fieldName f = "__typename"
      · simp only [ht, if_true]
        exact hfs
      · simp only [ht, if_false, printFields, String.length_append]
        omega
end

/-- Client stripping strictly shortens the printed scrubbed form when a
client-marked field that is not the typename metadata field sits in the
selection list. -/
theorem printFields_scrub_removeClient_lt : ∀ (fs : List FieldNode) (f : FieldNode),
    f ∈ fs → hasClient f = true → fieldName f ≠ "__typename" →
    (printFields (scrubFs (removeClientFs fs))).length < (printFields (scrubFs fs)).length := by
  intro fs
  induction fs with
  | nil => intro f hf _ _; cases hf
  | cons g gs ih =>
    intro f hf hc hn
    have hle := printFields_scrub_removeClient_le gs
    cases hf with
    | head =>
      have hsp : (" " : String).length = 1 := rfl
      simp only [removeClientFs, hc, if_true, scrubFs, hn, if_false, printFields,
        String.length_append]
      omega
    | tail _ hmem =>
      have hlt := ih f hmem hc hn
      by_cases hcg : hasClient g = true
      · simp only [removeClientFs, hcg, if_true]
        by_cases ht : fieldName g = "__typename"
        · simp only [scrubFs, ht, if_true]
          exact hlt
        · simp only [scrubFs, ht, if_false, printFields, String.length_append]
          omega
      · have hg := printField_scrub_removeClient_le g
        simp only [removeClientFs, hcg, if_false, scrubFs, fieldName_removeClientF]
        by_cases ht : fieldName g = "__typename"
        · simp only [ht, if_true]
          exact hlt
        · simp only [ht, if_false, printFields, String.length_append]
          omega

/-- C9 (amended): the registration key and the dispatch key are derived
by different pipelines - client-directive stripping happens only at
registration. Consequently (a) a document unchanged by client stripping
registers under exactly the key dispatch computes for it, and (b) a
document containing a client-only field other than the typename metadata
field alongside server fields registers under a key that dispatch of the
same document will not produce. (The original claim, for every client-only
field, fails when the only client-only field is a typename field, which
the dispatch pipeline erases too; see the counterexample.) -/
theorem registration_vs_dispatch_key_pipelines :
    (∀ d : DocumentNode, removeClientSetsFromDocument d = some d →
        registrationKey d = some (requestToKey d))
  ∧ (∀ (d : DocumentNode) (f : FieldNode), f ∈ d.selections →
        hasClient f = true → fieldName f ≠ "__typename" →
        ∀ k, registrationKey d = some k → k ≠ requestToKey d) := by
  constructor
  · intro d hd
    simp only [registrationKey, hd]
  · intro d f hf hc hn k hk heq
    subst heq
    simp only [registrationKey, removeClientSetsFromDocument] at hk
    by_cases he : (removeClientFs d.selections).isEmpty = true
    · simp only [he, if_true] at hk
      exact Option.noConfusion hk
    · simp only [he, if_false] at hk
      have hkey : requestToKey ⟨removeClientFs d.selections⟩ = requestToKey d := by
        exact Option.some.inj hk
      have hprint := congrArg decodeKey hkey
      rw [decodeKey_requestToKey, decodeKey_requestToKey] at hprint
      rw [normalise_eq_scrubDoc, normalise_eq_scrubDoc] at hprint
      have hlen := congrArg String.length hprint
      simp only [scrubDoc, printDoc, String.length_append] at hlen
      have hlt := printFields_scrub_removeClient_lt d.selections f hf hc hn
      omega

/-- C9 counterexample: a document whose only client-local field is the
client-marked typename metadata field, next to a server field, registers
under exactly the key dispatch computes for the same document, because
the dispatch pipeline erases the typename field as well - refuting the
original claim that every document with client-only fields alongside
server fields registers under a key dispatch will not produce. -/
theorem registration_key_typename_client_counterexample :
    (FieldNode.mk ("__typename") [.client] []) ∈
        (DocumentNode.mk [.mk ("a") [] [], .mk ("__typename") [.client] []]).selections
    ∧ hasClient (FieldNode.mk ("__typename") [.client] []) = true
    ∧ hasClient (FieldNode.mk ("a") [] []) = false
    ∧ registrationKey ⟨[.mk ("a") [] [], .mk ("__typename") [.client] []]⟩
        = some (requestToKey ⟨[.mk ("a") [] [], .mk ("__typename") [.client] []]⟩) :=
  ⟨List.Mem.tail _ (List.Mem.head _), rfl, rfl, by decide⟩

/-- Witness for C9: part (a) at a document with no client parts, and part
(b) at a document pairing a server field with a client-marked field. -/
theorem registration_vs_dispatch_key_witness :
    registrationKey ⟨[.mk ("a") [] []]⟩ = some (requestToKey ⟨[.mk ("a") [] []]⟩)
    ∧ requestToKey ⟨[.mk ("a") [] []]⟩
        ≠ requestToKey ⟨[.mk ("a") [] [], .mk ("b") [.client] []]⟩ :=
  ⟨registration_vs_dispatch_key_pipelines.1 ⟨[.mk ("a") [] []]⟩ rfl,
   registration_vs_dispatch_key_pipelines.2 ⟨[.mk ("a") [] [], .mk ("b") [.client] []]⟩
     (.mk ("b") [.client] []) (List.Mem.tail _ (List.Mem.head _)) rfl (by decide) _ rfl⟩

/-- C2: for an operation whose canonical key has no registered handler:
under the throw-error policy, request raises synchronously before any
result stream is constructed; under warn-and-return-error it returns a
stream that, on subscription, logs a warning and signals an error naming
the unmatched query; under return-error it returns a stream that errors
on subscription with no warning. -/
theorem missing_handler_policy_behaviour
    (l : MockLink) (op : Operation)
    (hmiss : lookupHandler l.requestHandlers (requestToKey op.query) = none) :
    (l.missingHandlerPolicy = .throwError →
        l.request op = .error (getNotDefinedHandlerMessage op))
  ∧ (l.missingHandlerPolicy = .warnAndReturnError →
        l.request op = .ok ⟨[getNotDefinedHandlerMessage op],
          [.errorEv (getNotDefinedHandlerMessage op)], false⟩)
  ∧ (l.missingHandlerPolicy = .returnError →
        l.request op = .ok ⟨[], [.errorEv (getNotDefinedHandlerMessage op)], false⟩)
  ∧ getNotDefinedHandlerMessage op
      = "Request handler not defined for query: " ++ printDoc op.query := by
  refine ⟨?_, ?_, ?_, rfl⟩ <;> intro hp <;>
    simp [MockLink.request, hmiss, hp, requestBody]

/-- Witness for C2 at a concrete unregistered query under each policy. -/
theorem missing_handler_policy_witness :
    MockLink.request ⟨.throwError, []⟩ ⟨⟨[.mk ("user") [] []]⟩, []⟩
      = .error (getNotDefinedHandlerMessage ⟨⟨[.mk ("user") [] []]⟩, []⟩)
    ∧ MockLink.request ⟨.warnAndReturnError, []⟩ ⟨⟨[.mk ("user") [] []]⟩, []⟩
      = .ok ⟨[getNotDefinedHandlerMessage ⟨⟨[.mk ("user") [] []]⟩, []⟩],
          [.errorEv (getNotDefinedHandlerMessage ⟨⟨[.mk ("user") [] []]⟩, []⟩)], false⟩
    ∧ MockLink.request ⟨.returnError, []⟩ ⟨⟨[.mk ("user") [] []]⟩, []⟩
      = .ok ⟨[], [.errorEv (getNotDefinedHandlerMessage ⟨⟨[.mk ("user") [] []]⟩, []⟩)], false⟩ :=
  ⟨(missing_handler_policy_behaviour ⟨.throwError, []⟩
      ⟨⟨[.mk ("user") [] []]⟩, []⟩ rfl).1 rfl,
   (missing_handler_policy_behaviour ⟨.warnAndReturnError, []⟩
      ⟨⟨[.mk ("user") [] []]⟩, []⟩ rfl).2.1 rfl,
   (missing_handler_policy_behaviour ⟨.returnError, []⟩
      ⟨⟨[.mk ("user") [] []]⟩, []⟩ rfl).2.2.1 rfl⟩

/-- C3: a handler returning a deferred value that resolves with v yields
exactly one next call with v followed by exactly one complete, in that
order, and no error; one that rejects with r yields exactly one error
call with r and no next or complete. -/
theorem deferred_result_semantics
    (l : MockLink) (op : Operation) (h : Handler)
    (hfound : lookupHandler l.requestHandlers (requestToKey op.query) = some h) :
    (∀ v, h op.vars = .returns (.promiseLike (.resolves v)) →
        l.request op = .ok ⟨[], [.next v, .complete], false⟩)
  ∧ (∀ r, h op.vars = .returns (.promiseLike (.rejects r)) →
        l.request op = .ok ⟨[], [.errorEv r], false⟩) := by
  constructor <;> intro x hx <;>
    simp [MockLink.request, hfound, requestBody, hx]

/-- Witness for C3: a resolving and a rejecting deferred handler. -/
theorem deferred_result_witness :
    MockLink.request
        ⟨.throwError, [(requestToKey ⟨[.mk ("user") [] []]⟩,
          fun _ => .returns (.promiseLike (.resolves ("one"))))]⟩
        ⟨⟨[.mk ("user") [] []]⟩, []⟩
      = .ok ⟨[], [.next ("one"), .complete], false⟩
    ∧ MockLink.request
        ⟨.throwError, [(requestToKey ⟨[.mk ("user") [] []]⟩,
          fun _ => .returns (.promiseLike (.rejects ("boom"))))]⟩
        ⟨⟨[.mk ("user") [] []]⟩, []⟩
      = .ok ⟨[], [.errorEv ("boom")], false⟩ :=
  ⟨(deferred_result_semantics
      ⟨.throwError, [(requestToKey ⟨[.mk ("user") [] []]⟩,
        fun _ => .returns (.promiseLike (.resolves ("one"))))]⟩
      ⟨⟨[.mk ("user") [] []]⟩, []⟩
      (fun _ => .returns (.promiseLike (.resolves ("one")))) rfl).1 ("one") rfl,
   (deferred_result_semantics
      ⟨.throwError, [(requestToKey ⟨[.mk ("user") [] []]⟩,
        fun _ => .returns (.promiseLike (.rejects ("boom"))))]⟩
      ⟨⟨[.mk ("user") [] []]⟩, []⟩
      (fun _ => .returns (.promiseLike (.rejects ("boom")))) rfl).2 ("boom") rfl⟩

/-- C5: a handler that throws synchronously never propagates the throw
synchronously out of request; the exception is wrapped with the original
message and delivered through the result stream error channel once
subscribed. -/
theorem handler_throw_wrapped_into_stream
    (l : MockLink) (op : Operation) (h : Handler) (msg : String)
    (hfound : lookupHandler l.requestHandlers (requestToKey op.query) = some h)
    (hthrow : h op.vars = .throws msg) :
    l.request op = .ok ⟨[], [.errorEv (handlerErrorMessage msg)], false⟩
    ∧ handlerErrorMessage msg
      = "Unexpected error whilst calling request handler: " ++ msg := by
  refine ⟨?_, rfl⟩
  simp [MockLink.request, hfound, requestBody, hthrow]

/-- Witness for C5 at a handler that throws. -/
theorem handler_throw_witness :
    MockLink.request
        ⟨.throwError, [(requestToKey ⟨[.mk ("user") [] []]⟩, fun _ => .throws ("boom"))]⟩
        ⟨⟨[.mk ("user") [] []]⟩, []⟩
      = .ok ⟨[], [.errorEv (handlerErrorMessage ("boom"))], false⟩ :=
  (handler_throw_wrapped_into_stream
    ⟨.throwError, [(requestToKey ⟨[.mk ("user") [] []]⟩, fun _ => .throws ("boom"))]⟩
    ⟨⟨[.mk ("user") [] []]⟩, []⟩
    (fun _ => .throws ("boom")) ("boom") rfl rfl).1

/-- C10: the dispatcher classifies a handler result as a subscription only
when it is an instance of the concrete MockSubscription class; an object
implementing the subscription interface without being such an instance,
and with no callable then capability, falls through to the
invalid-return-type error, delivered through the stream error channel and
naming the received shape. -/
theorem instanceof_only_subscription_detection
    (l : MockLink) (op : Operation) (h : Handler)
    (hfound : lookupHandler l.requestHandlers (requestToKey op.query) = some h)
    (hsub : h op.vars = .returns .subscriptionLike) :
    isSubscription .mockSubInstance = true
    ∧ isSubscription .subscriptionLike = false
    ∧ isPromise .subscriptionLike = false
    ∧ l.request op
        = .ok ⟨[], [.errorEv (invalidReturnMessage .subscriptionLike)], false⟩
    ∧ invalidReturnMessage .subscriptionLike
        = "Request handler must return a promise or subscription. Received \x27object\x27." := by
  refine ⟨rfl, rfl, rfl, ?_, by decide⟩
  simp [MockLink.request, hfound, requestBody, hsub]

/-- Witness for C10 at a handler returning a subscription-shaped object
that is not a MockSubscription instance. -/
theorem instanceof_subscription_witness :
    MockLink.request
        ⟨.throwError, [(requestToKey ⟨[.mk ("user") [] []]⟩,
          fun _ => .returns .subscriptionLike)]⟩
        ⟨⟨[.mk ("user") [] []]⟩, []⟩
      = .ok ⟨[], [.errorEv (invalidReturnMessage .subscriptionLike)], false⟩ :=
  (instanceof_only_subscription_detection
    ⟨.throwError, [(requestToKey ⟨[.mk ("user") [] []]⟩,
      fun _ => .returns .subscriptionLike)]⟩
    ⟨⟨[.mk ("user") [] []]⟩, []⟩
    (fun _ => .returns .subscriptionLike) rfl rfl).2.2.2.1

/-- C4: registering a second handler for a document whose canonical key
already has a handler throws the duplicate handler error synchronously at
registration time and leaves the registry unchanged when replace is not
requested; with the replace option set (the spec-modelled register entry
point), the second registration succeeds silently and the new handler
supersedes the first under that key. -/
theorem duplicate_registration_and_replace
    (l : MockLink) (q q2 : DocumentNode) (h : Handler)
    (hstrip : removeClientSetsFromDocument q = some q2)
    (hdup : (lookupHandler l.requestHandlers (requestToKey q2)).isSome = true) :
    ((l.setRequestHandler q h).thrown = some (duplicateHandlerMessage q)
      ∧ (l.setRequestHandler q h).link = l
      ∧ duplicateHandlerMessage q
          = "Request handler already defined for query: " ++ printDoc q)
    ∧ ((register l q h true).thrown = none
      ∧ (register l q h true).warnings = []
      ∧ lookupHandler (register l q h true).link.requestHandlers (requestToKey q2)
          = some h) := by
  constructor
  · refine ⟨?_, ?_, rfl⟩ <;> simp [MockLink.setRequestHandler, hstrip, hdup]
  · refine ⟨?_, ?_, ?_⟩ <;> simp [register, hstrip, lookupHandler]

/-- Witness for C4 at a link that already holds a handler for the query. -/
theorem duplicate_registration_witness :
    (MockLink.setRequestHandler
        ⟨.throwError, [(requestToKey ⟨[.mk ("user") [] []]⟩, fun _ => .returns .undef)]⟩
        ⟨[.mk ("user") [] []]⟩ (fun _ => .returns .undef)).thrown
      = some (duplicateHandlerMessage ⟨[.mk ("user") [] []]⟩)
    ∧ (register
        ⟨.throwError, [(requestToKey ⟨[.mk ("user") [] []]⟩, fun _ => .returns .undef)]⟩
        ⟨[.mk ("user") [] []]⟩ (fun _ => .returns .undef) true).thrown = none :=
  ⟨(duplicate_registration_and_replace
      ⟨.throwError, [(requestToKey ⟨[.mk ("user") [] []]⟩, fun _ => .returns .undef)]⟩
      ⟨[.mk ("user") [] []]⟩ ⟨[.mk ("user") [] []]⟩
      (fun _ => .returns .undef) rfl rfl).1.1,
   (duplicate_registration_and_replace
      ⟨.throwError, [(requestToKey ⟨[.mk ("user") [] []]⟩, fun _ => .returns .undef)]⟩
      ⟨[.mk ("user") [] []]⟩ ⟨[.mk ("user") [] []]⟩
      (fun _ => .returns .undef) rfl rfl).2.1⟩

/-- C8: registering a document that client stripping reduces to nothing
is a no-op: a warning is logged, no error is thrown and the handler
registry is left unchanged. -/
theorem client_only_registration_noop
    (l : MockLink) (q : DocumentNode) (h : Handler)
    (hq : removeClientSetsFromDocument q = none) :
    l.setRequestHandler q h = ⟨l, [entirelyClientSideWarning], none⟩ := by
  simp [MockLink.setRequestHandler, hq]

/-- Witness for C8 at an entirely client-side document. -/
theorem client_only_registration_witness :
    MockLink.setRequestHandler ⟨.throwError, []⟩ ⟨[.mk ("b") [.client] []]⟩
        (fun _ => .returns .undef)
      = ⟨⟨.throwError, []⟩, [entirelyClientSideWarning], none⟩ :=
  client_only_registration_noop ⟨.throwError, []⟩ ⟨[.mk ("b") [.client] []]⟩
    (fun _ => .returns .undef) rfl

/-- C6: with no observer attached, any sequence of next, error and
complete calls leaves the subscription state unchanged - zero observable
downstream effects - and logs exactly one no-observer warning per call
when logging is enabled and none otherwise; once an observer is attached,
each subsequent call invokes the corresponding observer callback exactly
once, in call order (the observer primitive itself discards deliveries
after it closes, see the closed-subscription theorem). -/
theorem subscription_forwarding_behaviour :
    (∀ (ld : Bool) (cs : List SubCall),
        runCalls ⟨none, ld⟩ cs
          = (⟨none, ld⟩, if ld then [] else List.replicate cs.length noObserverWarning))
  ∧ (∀ (ld : Bool) (o : SubscriptionObserver) (cs : List SubCall),
        ∃ o2 : SubscriptionObserver,
          (runCalls ⟨some o, ld⟩ cs).1 = ⟨some o2, ld⟩
          ∧ o2.invoked = o.invoked ++ cs.map callEvent) := by
  constructor
  · intro ld cs
    induction cs with
    | nil => cases ld <;> simp [runCalls]
    | cons c cs ih =>
      cases ld <;> cases c <;>
        simp [runCalls, applyCall, MockSubscription.next, MockSubscription.error,
          MockSubscription.complete, MockSubscription.verifyState, ih,
          List.replicate_succ]
  · intro ld o cs
    induction cs generalizing o with
    | nil => exact ⟨o, rfl, by simp [runCalls]⟩
    | cons c cs ih =>
      cases c with
      | nextC v =>
        obtain ⟨o2, h1, h2⟩ := ih (o.onNext v)
        refine ⟨o2, ?_, ?_⟩
        · simpa [runCalls, applyCall, MockSubscription.next] using h1
        · rw [h2]
          simp [SubscriptionObserver.onNext, callEvent]
      | errorC e =>
        obtain ⟨o2, h1, h2⟩ := ih (o.onError e)
        refine ⟨o2, ?_, ?_⟩
        · simpa [runCalls, applyCall, MockSubscription.error] using h1
        · rw [h2]
          simp [SubscriptionObserver.onError, callEvent]
      | completeC =>
        obtain ⟨o2, h1, h2⟩ := ih o.onComplete
        refine ⟨o2, ?_, ?_⟩
        · simpa [runCalls, applyCall, MockSubscription.complete] using h1
        · rw [h2]
          simp [SubscriptionObserver.onComplete, callEvent]

/-- C7: on a subscription whose attached observer reports closed, next,
error and complete invoke the observer methods but nothing is forwarded
downstream - the delivered events are unchanged and the observer stays
closed - and the closed warning is logged exactly when logging is
enabled. -/
theorem closed_subscription_noop
    (s : MockSubscription) (o : SubscriptionObserver)
    (hobs : s.observer = some o) (hclosed : o.closed = true) :
    (∀ v, (s.next v).1 = ⟨some (o.onNext v), s.loggingDisabled⟩
      ∧ (o.onNext v).delivered = o.delivered
      ∧ (o.onNext v).closed = true
      ∧ (s.next v).2 = if s.loggingDisabled then [] else [closedWarning])
  ∧ (∀ e, (s.error e).1 = ⟨some (o.onError e), s.loggingDisabled⟩
      ∧ (o.onError e).delivered = o.delivered
      ∧ (o.onError e).closed = true
      ∧ (s.error e).2 = if s.loggingDisabled then [] else [closedWarning])
  ∧ ((s.complete).1 = ⟨some o.onComplete, s.loggingDisabled⟩
      ∧ o.onComplete.delivered = o.delivered
      ∧ o.onComplete.closed = true
      ∧ (s.complete).2 = if s.loggingDisabled then [] else [closedWarning]) := by
  refine ⟨fun v => ⟨?_, ?_, ?_, ?_⟩, fun e => ⟨?_, ?_, ?_, ?_⟩, ?_, ?_, ?_, ?_⟩ <;>
    simp [MockSubscription.next, MockSubscription.error, MockSubscription.complete,
      MockSubscription.verifyState, MockSubscription.closed, SubscriptionObserver.onNext,
      SubscriptionObserver.onError, SubscriptionObserver.onComplete, hobs, hclosed]

/-- Witness for C7 at a subscription whose attached observer is closed. -/
theorem closed_subscription_witness :
    (MockSubscription.next ⟨some ⟨true, [], []⟩, false⟩ ("x")).1
      = ⟨some (SubscriptionObserver.onNext ⟨true, [], []⟩ ("x")), false⟩
    ∧ (SubscriptionObserver.onNext ⟨true, [], []⟩ ("x")).delivered = []
    ∧ (MockSubscription.next ⟨some ⟨true, [], []⟩, false⟩ ("x")).2 = [closedWarning] := by
  have h := (closed_subscription_noop ⟨some ⟨true, [], []⟩, false⟩ ⟨true, [], []⟩ rfl rfl).1 ("x")
  exact ⟨h.1, h.2.1, by simpa using h.2.2.2⟩
